import Mathlib

/-!
Shallow embedding of the questionnaire scoring and answer-normalization core
of the `infographic` package (files `utils/string_handling.py`,
`utils/scoring.py`, `utils/process.py`, `visualisation/helpers.py`).

Raw JSON-decoded answer values are modelled by `JsonValue`; Python `float`
is modelled by `ℚ` (every value appearing in the scoring rules is an exact
decimal).  Python exceptions are modelled by `Except ScoreError`: each
`raise`/`assert` site of the source is mapped to a distinct `ScoreError`
constructor carrying the data that the source interpolates into its
message.  Answer dictionaries are association lists with unique keys;
`dict.get` returning `None` (missing key or JSON null) is modelled by
`JsonValue.null`.
-/

namespace Infographic

/-- A raw JSON-decoded answer value, as handed to the scoring core.
`bool` is kept separate because Python `bool` is a subtype of `int`
(`isinstance(True, int)` holds), which matters to the validator. -/
inductive JsonValue where
  | null
  | bool (b : Bool)
  | int (n : Int)
  | float (q : ℚ)
  | str (s : String)
deriving DecidableEq

/-- The error outcomes of the scoring core.  Python raises `ValueError`
(with distinct message shapes), `AssertionError`, or `ZeroDivisionError`;
each raise site is mapped to one constructor carrying the interpolated
data. -/
inductive ScoreError where
  /-- `ValueError` "Invalid {key} value. Out of range [{lo}-{hi}]: {val}". -/
  | outOfRange (key : String) (lo hi : Int) (val : JsonValue)
  /-- `ValueError` "Invalid {key} value: {val}". -/
  | invalidFormat (key : String) (val : JsonValue)
  /-- `ValueError` raised by Python `float()` on an unparseable token. -/
  | floatParse (token : String)
  /-- The defensive `raise ValueError` at the end of a bucketing chain. -/
  | invalidScore (key : String)
  /-- `AssertionError` with the given message. -/
  | assertFailed (msg : String)
  /-- `ZeroDivisionError`. -/
  | zeroDivision
deriving DecidableEq

deriving instance DecidableEq for Except

/-- An answers (or scores) dictionary: association list, unique keys. -/
abbrev AnswerMap := List (String × JsonValue)

/-- `answers.get(key)`: Python `dict.get` returns `None` when the key is
absent, which the scoring code treats exactly like a stored JSON null, so
both are modelled as `JsonValue.null`. -/
def getAns : AnswerMap → String → JsonValue
  | [], _ => .null
  | (k, v) :: rest, key => if k = key then v else getAns rest key

/-- Python `str.isdigit()` on the ASCII strings this data contains:
nonempty and all characters are decimal digits.  (Character lists are
used instead of the core `String` iterator functions so that every
operation reduces structurally.) -/
def pyIsDigit (cs : List Char) : Bool :=
  !cs.isEmpty && cs.all Char.isDigit

/-- Decimal value of a digit list (the value `int(s)` gives on a digit
string). -/
def digitsVal (cs : List Char) : Nat :=
  cs.foldl (fun n c => 10 * n + (c.toNat - 48)) 0

/-- Python `s.split(sep)` for a one-character separator: splitting the
empty string gives `[""]`, and each occurrence of the separator closes
the current (possibly empty) piece. -/
def splitOnChar (c : Char) : List Char → List (List Char)
  | [] => [[]]
  | x :: xs =>
    match splitOnChar c xs with
    | [] => [[]]
    | p :: ps => if x = c then [] :: p :: ps else (x :: p) :: ps

/-- Python `str.strip()` (as called by `float()`) on ASCII data: drop
leading and trailing whitespace. -/
def pyStrip (cs : List Char) : List Char :=
  ((cs.dropWhile Char.isWhitespace).reverse.dropWhile Char.isWhitespace).reverse

/-- Python `str.lower()` on the ASCII strings this data contains. -/
def pyLower (s : String) : String :=
  String.mk (s.toList.map Char.toLower)

/-- Python `float(s)` on the plain decimal literals this data contains:
optional surrounding whitespace, optional sign, digits with an optional
fractional part (`"6"`, `"6.5"`, `".5"`, `"6."`).  Exotic inputs Python
would also accept (exponents, `inf`, `nan`, underscores) are out of scope
for this data and modelled as parse failures. -/
def pyFloat (cs0 : List Char) : Option ℚ :=
  let cs := pyStrip cs0
  let neg : Bool := match cs with | '-' :: _ => true | _ => false
  let body : List Char :=
    match cs with
    | '-' :: rest => rest
    | '+' :: rest => rest
    | _ => cs
  let intPart := body.takeWhile Char.isDigit
  let rest := body.dropWhile Char.isDigit
  let mag : Option ℚ :=
    match rest with
    | [] =>
      if intPart.isEmpty then none
      else some (digitsVal intPart : ℚ)
    | '.' :: frac =>
      if frac.all Char.isDigit && !(intPart.isEmpty && frac.isEmpty) then
        some ((digitsVal intPart : ℚ) +
          (digitsVal frac : ℚ) / ((10 : ℚ) ^ frac.length))
      else none
    | _ => none
  match mag with
  | none => none
  | some v => some (if neg then -v else v)

/-- `string_handling.valid_and_digit(json_response, lower_bound,
upper_bound, response_key)`.

Branch order of the source: (1) `isinstance(json_response, int)` — which
in Python is also satisfied by `bool`, converting `True`/`False` to
`1`/`0` — returns the value with no bound check; (2) digit strings are
converted with no bound check; (3) `isinstance(json_response, (float,
int))` out of the bounds raises the out-of-range `ValueError` — for an
`int` this branch is shadowed by branch (1), so it only fires for
`float`; (4) everything else (including an in-range `float`) raises the
invalid-value `ValueError`. -/
def valid_and_digit (json_response : JsonValue) (lower_bound upper_bound : Int)
    (response_key : Option String) : Except ScoreError Int :=
  let key := response_key.getD ""
  match json_response with
  | .int n => .ok n
  | .bool b => .ok (if b then 1 else 0)
  | .str s =>
    if pyIsDigit s.toList then .ok (digitsVal s.toList : Int)
    else .error (.invalidFormat key (.str s))
  | .float q =>
    if q < (lower_bound : ℚ) ∨ (upper_bound : ℚ) < q then
      .error (.outOfRange key lower_bound upper_bound (.float q))
    else .error (.invalidFormat key (.float q))
  | .null => .error (.invalidFormat key .null)

/-- `string_handling.split_the_difference(json_response, response_key)`.

Numbers (and, as in Python, booleans) pass through `float()`; a string
containing `"-"` is split on `"-"` and the first two parts `parts[0]`,
`parts[1]` are fed to `float()` (further parts are ignored by the
source), returning the midpoint of the two; anything else raises the
invalid-value `ValueError`.  A string containing the separator always
splits into at least two parts, so the final fallback (Python's
`IndexError`) is unreachable. -/
def split_the_difference (json_response : JsonValue)
    (response_key : Option String) : Except ScoreError ℚ :=
  let key := response_key.getD ""
  match json_response with
  | .int n => .ok (n : ℚ)
  | .float q => .ok q
  | .bool b => .ok (if b then 1 else 0)
  | .str s =>
    if s.toList.contains '-' then
      match splitOnChar '-' s.toList with
      | p0 :: p1 :: _ =>
        (match pyFloat p0 with
         | none => .error (.floatParse (String.mk p0))
         | some low =>
           match pyFloat p1 with
           | none => .error (.floatParse (String.mk p1))
           | some high => .ok ((low + high) / 2))
      | _ =>
        .error (.floatParse "")
    else .error (.invalidFormat key (.str s))
  | .null => .error (.invalidFormat key .null)

/-- Minutes since midnight of an `"HH:MM"` string (`none` when the string
is not a well-formed time of day). -/
def parseHHMM (s : String) : Option Nat :=
  match splitOnChar ':' s.toList with
  | [h, mn] =>
    if pyIsDigit h && pyIsDigit mn then
      if digitsVal h ≤ 23 && digitsVal mn ≤ 59 then
        some (60 * digitsVal h + digitsVal mn)
      else none
    else none
  | _ => none

/-- Modelled from the spec: `split_the_difference_datetime` is imported by
`utils/scoring.py` from `utils.string_handling` but its definition is
absent from the provided sources.  Following the spec (§4.1), the
time-range normalization used by `psqi_c5_sleep_efficiency` is modelled as
taking the two `"HH:MM"` endpoints (bedtime and wake time) and returning
the elapsed duration in hours, adding 24 hours when the end time is
numerically earlier than the start (wraparound past midnight). -/
def split_the_difference_datetime (start_str end_str : String) :
    Except ScoreError ℚ :=
  match parseHHMM start_str with
  | none => .error (.invalidFormat "time" (.str start_str))
  | some s =>
    match parseHHMM end_str with
    | none => .error (.invalidFormat "time" (.str end_str))
    | some e =>
      .ok (((e : ℚ) + (if e < s then 1440 else 0) - (s : ℚ)) / 60)

/-- The `for q in questions: val = valid_and_digit(...); total += val` loop
shared (textually duplicated) by `psqi_c2_disturbance`,
`simple_response_to_score_map`, and friends: validate each question's
answer against the bound and accumulate the sum, propagating the first
failure. -/
def sumLoop (m : AnswerMap) (lo hi : Int) :
    List String → Int → Except ScoreError Int
  | [], acc => .ok acc
  | q :: qs, acc =>
    match valid_and_digit (getAns m q) lo hi (some q) with
    | .error e => .error e
    | .ok v => sumLoop m lo hi qs (acc + v)

/-- `scoring.psqi_c1_duration(psqi_answers)`: normalize
`q4_sleep_hours` with `split_the_difference`, then bucket. -/
def psqi_c1_duration (m : AnswerMap) : Except ScoreError Int :=
  match split_the_difference (getAns m "q4_sleep_hours")
      (some "q4_sleep_hours") with
  | .error e => .error e
  | .ok q4 =>
    if 7 ≤ q4 then .ok 0
    else if 6 ≤ q4 ∧ q4 < 7 then .ok 1
    else if 5 ≤ q4 ∧ q4 < 6 then .ok 2
    else if q4 < 5 then .ok 3
    else .error (.invalidScore "q4_sleep_hours")

/-- The eight disturbance items summed by `psqi_c2_disturbance`. -/
def disturbance_questions : List String :=
  ["q5b_wake_during_night", "q5c_bathroom", "q5d_cant_breathe", "q5e_snore",
   "q5f_cold", "q5g_hot", "q5h_bad_dreams", "q5i_pain"]

/-- `scoring.psqi_c2_disturbance(psqi_answers)`: validate and sum the
eight 0–3 disturbance items, then bucket the sum. -/
def psqi_c2_disturbance (m : AnswerMap) : Except ScoreError Int :=
  match sumLoop m 0 3 disturbance_questions 0 with
  | .error e => .error e
  | .ok total =>
    if total = 0 then .ok 0
    else if 1 ≤ total ∧ total ≤ 8 then .ok 1
    else if 9 ≤ total ∧ total ≤ 16 then .ok 2
    else if 17 ≤ total ∧ total ≤ 24 then .ok 3
    else .error (.invalidScore "disturbance")

/-- `scoring.psqi_c3_latency(psqi_answers)`: normalize
`q2_sleep_latency_min`, validate `q5a_cant_sleep_30min`, bucket the
minutes into a helper score, then bucket the sum of the two. -/
def psqi_c3_latency (m : AnswerMap) : Except ScoreError Int :=
  match split_the_difference (getAns m "q2_sleep_latency_min")
      (some "q2_sleep_latency_min") with
  | .error e => .error e
  | .ok q2 =>
    match valid_and_digit (getAns m "q5a_cant_sleep_30min") 0 3
        (some "q5a_cant_sleep_30min") with
    | .error e => .error e
    | .ok q5a =>
      match (if 0 ≤ q2 ∧ q2 ≤ 15 then Except.ok (0 : Int)
        else if 15 < q2 ∧ q2 ≤ 30 then Except.ok 1
        else if 30 < q2 ∧ q2 ≤ 60 then Except.ok 2
        else if 60 < q2 then Except.ok 3
        else Except.error (ScoreError.invalidScore "q2_sleep_latency_min")) with
      | .error e => .error e
      | .ok q2new =>
        if q5a + q2new = 0 then .ok 0
        else if 1 ≤ q5a + q2new ∧ q5a + q2new ≤ 2 then .ok 1
        else if 3 ≤ q5a + q2new ∧ q5a + q2new ≤ 4 then .ok 2
        else if 5 ≤ q5a + q2new ∧ q5a + q2new ≤ 6 then .ok 3
        else .error (.invalidScore "q2_sleep_latency_min or q5a")

/-- `scoring.psqi_c4_day_dysfunction(psqi_answers)`: validate the two 0–3
items `q8` and `q9` and bucket their sum. -/
def psqi_c4_day_dysfunction (m : AnswerMap) : Except ScoreError Int :=
  match valid_and_digit (getAns m "q8_trouble_staying_awake") 0 3
      (some "q8_trouble_staying_awake") with
  | .error e => .error e
  | .ok q8 =>
    match valid_and_digit (getAns m "q9_low_enthusiasm") 0 3
        (some "q9_low_enthusiasm") with
    | .error e => .error e
    | .ok q9 =>
      if q8 + q9 = 0 then .ok 0
      else if 1 ≤ q8 + q9 ∧ q8 + q9 ≤ 2 then .ok 1
      else if 3 ≤ q8 + q9 ∧ q8 + q9 ≤ 4 then .ok 2
      else if 5 ≤ q8 + q9 ∧ q8 + q9 ≤ 6 then .ok 3
      else .error (.invalidScore "day dysfunction")

/-- `scoring.psqi_c5_sleep_efficiency(psqi_answers)`: the elapsed time in
bed between `q1_bedtime` and `q3_wake_time` (computed through the
spec-modelled `split_the_difference_datetime`, see its doc comment) is
asserted to lie in (0, 24]; sleep efficiency = hours slept / time in bed
× 100 is then bucketed. -/
def psqi_c5_sleep_efficiency (m : AnswerMap) : Except ScoreError Int :=
  match getAns m "q1_bedtime", getAns m "q3_wake_time" with
  | .str q1, .str q3 =>
    match split_the_difference_datetime q1 q3 with
    | .error e => .error e
    | .ok total_time_in_bed_hours =>
      if 0 < total_time_in_bed_hours ∧ total_time_in_bed_hours ≤ 24 then
        match split_the_difference (getAns m "q4_sleep_hours")
            (some "q4_sleep_hours") with
        | .error e => .error e
        | .ok hours_slept =>
          let sleep_efficiency := hours_slept / total_time_in_bed_hours * 100
          if 85 ≤ sleep_efficiency then .ok 0
          else if 75 ≤ sleep_efficiency ∧ sleep_efficiency < 85 then .ok 1
          else if 65 ≤ sleep_efficiency ∧ sleep_efficiency < 75 then .ok 2
          else if sleep_efficiency < 65 then .ok 3
          else .error (.invalidScore "sleep efficiency")
      else .error (.assertFailed "Invalid time in bed")
  | q1, _ => .error (.invalidFormat "q1_bedtime or q3_wake_time" q1)

/-- `scoring.psqi_c6_overall_sleep_quality(psqi_answers)`: a single
validated item, returned as-is. -/
def psqi_c6_overall_sleep_quality (m : AnswerMap) : Except ScoreError Int :=
  valid_and_digit (getAns m "q6_overall_quality") 0 3
    (some "q6_overall_quality")

/-- `scoring.psqi_c7_medication(psqi_answers)`: a single validated item,
returned as-is. -/
def psqi_c7_medication (m : AnswerMap) : Except ScoreError Int :=
  valid_and_digit (getAns m "q7_sleep_medication") 0 3
    (some "q7_sleep_medication")

/-- The scores dictionary built by `process.process_psqi_response`:
the seven component scores plus `overall_score`. -/
structure PsqiScores where
  c1_duration : Int
  c2_disturbance : Int
  c3_latency : Int
  c4_day_dysfunction : Int
  c5_sleep_efficiency : Int
  c6_overall_sleep_quality : Int
  c7_medication : Int
  overall_score : Int
deriving DecidableEq

/-- `process.process_psqi_response(response)`: run the seven component
scorers in order — any failure propagates and aborts the whole PSQI
scoring — and sum them into `overall_score`. -/
def process_psqi_response (m : AnswerMap) : Except ScoreError PsqiScores :=
  match psqi_c1_duration m with
  | .error e => .error e
  | .ok c1 =>
    match psqi_c2_disturbance m with
    | .error e => .error e
    | .ok c2 =>
      match psqi_c3_latency m with
      | .error e => .error e
      | .ok c3 =>
        match psqi_c4_day_dysfunction m with
        | .error e => .error e
        | .ok c4 =>
          match psqi_c5_sleep_efficiency m with
          | .error e => .error e
          | .ok c5 =>
            match psqi_c6_overall_sleep_quality m with
            | .error e => .error e
            | .ok c6 =>
              match psqi_c7_medication m with
              | .error e => .error e
              | .ok c7 =>
                .ok ⟨c1, c2, c3, c4, c5, c6, c7,
                  c1 + c2 + c3 + c4 + c5 + c6 + c7⟩

/-- The `for q in ...: val = valid_and_digit(val, 0, 3, q); if q in
reversed: val = 3 - val; total += val` loop of the two HADS subscale
scorers (`hads_anxiety` tests `q == "A4"`, i.e. membership in the
singleton list). -/
def hadsLoop (m : AnswerMap) (reversedQs : List String) :
    List String → Int → Except ScoreError Int
  | [], acc => .ok acc
  | q :: qs, acc =>
    match valid_and_digit (getAns m q) 0 3 (some q) with
    | .error e => .error e
    | .ok v =>
      hadsLoop m reversedQs qs (acc + (if q ∈ reversedQs then 3 - v else v))

/-- `scoring.hads_anxiety(hads_answers)`: sum the seven 0–3 anxiety items
A1–A7, reverse-scoring exactly A4 (`3 - val`). -/
def hads_anxiety (m : AnswerMap) : Except ScoreError Int :=
  hadsLoop m ["A4"] ["A1", "A2", "A3", "A4", "A5", "A6", "A7"] 0

/-- `scoring.hads_depression(hads_answers)`: sum the seven 0–3 depression
items D1–D7, reverse-scoring D1, D2, D3, D6, D7. -/
def hads_depression (m : AnswerMap) : Except ScoreError Int :=
  hadsLoop m ["D1", "D2", "D3", "D6", "D7"]
    ["D1", "D2", "D3", "D4", "D5", "D6", "D7"] 0

/-- The `for question in binary_questions` loop of
`danish_medicine_adherence_scale`: each answer must be a string whose
lowercase form is `"yes"` (+1 point) or `"no"` (+0); anything else fails
the source's `assert`. -/
def dmasBinaryLoop (m : AnswerMap) : List String → ℚ → Except ScoreError ℚ
  | [], acc => .ok acc
  | q :: qs, acc =>
    match getAns m q with
    | .str ans =>
      let a := pyLower ans
      if a = "yes" then dmasBinaryLoop m qs (acc + 1)
      else if a = "no" then dmasBinaryLoop m qs acc
      else .error (.assertFailed ("Invalid answer for " ++ q))
    | _ => .error (.assertFailed ("Invalid answer type for " ++ q))

/-- `scoring.danish_medicine_adherence_scale(dmas_answers)`: one point per
case-insensitive "yes" on the binary items D4-1, D4-2, D4-3, D4-6; the
frequency item D4-4 maps never/rarely/sometimes/usually/always to
0/1/2/3/4 and is divided by 4; D4-5 and D4-7 are never read.  Any
non-string or unrecognized categorical answer fails the corresponding
`assert`. -/
def danish_medicine_adherence_scale (m : AnswerMap) : Except ScoreError ℚ :=
  match dmasBinaryLoop m ["D4-1", "D4-2", "D4-3", "D4-6"] 0 with
  | .error e => .error e
  | .ok total =>
    match getAns m "D4-4" with
    | .str ans =>
      let a := pyLower ans
      if a = "never" then .ok (total + 0 / 4)
      else if a = "rarely" then .ok (total + 1 / 4)
      else if a = "sometimes" then .ok (total + 2 / 4)
      else if a = "usually" then .ok (total + 3 / 4)
      else if a = "always" then .ok (total + 4 / 4)
      else .error (.assertFailed "Invalid answer for D4-4")
    | _ => .error (.assertFailed "Invalid answer type for D4-4")

/-- `scoring.simple_response_to_score_map(answers, questions,
answer_range)`: validate every listed question against the shared bound
and sum. -/
def simple_response_to_score_map (m : AnswerMap) (questions : List String)
    (lo hi : Int) : Except ScoreError Int :=
  sumLoop m lo hi questions 0

/-- The scores dictionary built by `process.process_who5_response`. -/
structure Who5Scores where
  overall_score : Int
  percentage_score : Int
deriving DecidableEq

/-- `process.process_who5_response(response)`: validate and sum Q1–Q5 on
the (1, 5) range, and scale the sum by 4 into `percentage_score`. -/
def process_who5_response (m : AnswerMap) : Except ScoreError Who5Scores :=
  match simple_response_to_score_map m ["Q1", "Q2", "Q3", "Q4", "Q5"] 1 5 with
  | .error e => .error e
  | .ok overall => .ok ⟨overall, overall * 4⟩

/-- The per-instrument record consumed by
`visualisation/helpers.get_standardised_overall_score`: a response dict
whose `"scores"` entry (when present) is a numeric mapping. -/
structure Response where
  scores : Option (List (String × ℚ))

/-- Numeric-dictionary lookup (`scores.get(key)`). -/
def lookupScore : List (String × ℚ) → String → Option ℚ
  | [], _ => none
  | (k, v) :: rest, key => if k = key then some v else lookupScore rest key

/-- `visualisation/helpers.get_standardised_overall_score(instrument_id,
response)`: assert (with a message naming the instrument) that the scores
mapping, `overall_score`, and `max_score` are present, then return
`(overall_score / max_score) * 100` (Python raises `ZeroDivisionError`
when `max_score` is zero). -/
def get_standardised_overall_score (instrument_id : String)
    (response : Response) : Except ScoreError ℚ :=
  match response.scores with
  | none => .error (.assertFailed
      ("No scores found in response for instrument " ++ instrument_id))
  | some response_scores =>
    match lookupScore response_scores "overall_score" with
    | none => .error (.assertFailed
        ("No overall score found in response for instrument " ++ instrument_id))
    | some overall_score =>
      match lookupScore response_scores "max_score" with
      | none => .error (.assertFailed
          ("No max score found in response for instrument " ++ instrument_id))
      | some max_score =>
        if max_score = 0 then .error .zeroDivision
        else .ok (overall_score / max_score * 100)

/-- A full PSQI answer set on which every component scorer succeeds, with
`q6_overall_quality` answered by the integer 22. -/
def psqiAnswersQ6Large : AnswerMap :=
  [("q4_sleep_hours", .float 8),
   ("q5b_wake_during_night", .int 0), ("q5c_bathroom", .int 0),
   ("q5d_cant_breathe", .int 0), ("q5e_snore", .int 0),
   ("q5f_cold", .int 0), ("q5g_hot", .int 0),
   ("q5h_bad_dreams", .int 0), ("q5i_pain", .int 0),
   ("q2_sleep_latency_min", .int 10), ("q5a_cant_sleep_30min", .int 0),
   ("q8_trouble_staying_awake", .int 0), ("q9_low_enthusiasm", .int 0),
   ("q1_bedtime", .str "23:00"), ("q3_wake_time", .str "07:00"),
   ("q6_overall_quality", .int 22), ("q7_sleep_medication", .int 0)]

/-- A HADS answer set with every item answered 0. -/
def hadsAnswersAllZero : AnswerMap :=
  [("A1", .int 0), ("A2", .int 0), ("A3", .int 0), ("A4", .int 0),
   ("A5", .int 0), ("A6", .int 0), ("A7", .int 0),
   ("D1", .int 0), ("D2", .int 0), ("D3", .int 0), ("D4", .int 0),
   ("D5", .int 0), ("D6", .int 0), ("D7", .int 0)]

/-- A PSQI answer set carrying only a reported-sleep-hours number. -/
def sleepHoursAnswer (q : ℚ) : AnswerMap := [("q4_sleep_hours", .float q)]

/-- A WHO-5 answer set with all five items answered 3. -/
def who5AnswersAllThree : AnswerMap :=
  [("Q1", .int 3), ("Q2", .int 3), ("Q3", .int 3), ("Q4", .int 3),
   ("Q5", .int 3)]

/-- The yes/no answer string for a boolean, in capitalized form (the
scorer lowercases before matching). -/
def mkYesNo (b : Bool) : String := if b then "Yes" else "No"

/-- The five frequency words of the D4-4 item, in capitalized form (the
scorer lowercases before matching); index i maps to score i. -/
def freqWords : List String :=
  ["Never", "Rarely", "Sometimes", "Usually", "Always"]

/-- A DMAS answer set: the four binary items answered yes/no according to
the booleans, the frequency item D4-4 answered `freq`, and the two
free-text items D4-5 and D4-7 holding arbitrary values. -/
def mkDmasAnswers (b1 b2 b3 b6 : Bool) (freq : String) (v5 v7 : JsonValue) :
    AnswerMap :=
  [("D4-1", .str (mkYesNo b1)), ("D4-2", .str (mkYesNo b2)),
   ("D4-3", .str (mkYesNo b3)), ("D4-6", .str (mkYesNo b6)),
   ("D4-4", .str freq), ("D4-5", v5), ("D4-7", v7)]

/-- A response whose scores mapping has both `overall_score` and
`max_score` (the WHO-5 values 15 and 25). -/
def who5ScoresResponse : Response :=
  ⟨some [("overall_score", 15), ("max_score", 25)]⟩

/-- A response with no scores mapping at all. -/
def noScoresResponse : Response := ⟨none⟩

/-- A response whose scores mapping lacks `overall_score`. -/
def noOverallResponse : Response := ⟨some [("max_score", 25)]⟩

/-- A response whose scores mapping lacks `max_score`. -/
def noMaxResponse : Response := ⟨some [("overall_score", 15)]⟩

/-- C1: the claim says `valid_and_digit` rejects with an out-of-range
error any numeric value strictly outside the inclusive bound, in
particular the integer 5 and the digit-string "5" on a 0–3 item.  On the
code this fails: the `isinstance(int)` and digit-string branches return
the value without consulting the bounds (the out-of-range branch is
reachable only for floats), so 5 and "5" are returned as 5; only the
"not sure" part of the claim ("InvalidAnswerFormat") holds. -/
theorem valid_and_digit_accepts_out_of_range_int :
    valid_and_digit (.int 5) 0 3 (some "q6_overall_quality") = .ok 5 ∧
    valid_and_digit (.str "5") 0 3 (some "q6_overall_quality") = .ok 5 ∧
    valid_and_digit (.str "not sure") 0 3 (some "q6_overall_quality") =
      .error (.invalidFormat "q6_overall_quality" (.str "not sure")) := by
  exact ⟨rfl, by decide, by decide⟩

/-- C10: for every bound and every Python boolean, `valid_and_digit`
returns the boolean converted to an integer (True gives 1, False gives 0)
without any range check, because Python `bool` is a subtype of `int` and
so is caught by the unchecked `isinstance(int)` branch. -/
theorem valid_and_digit_bool_as_int (lower_bound upper_bound : Int)
    (response_key : Option String) (b : Bool) :
    valid_and_digit (.bool b) lower_bound upper_bound response_key =
      .ok (if b then 1 else 0) := rfl

/-- C2 counterexample: the claim says every malformed or wrong-arity
range string fails with an error, but the wrong-arity range string
"1-2-3" is accepted and returns the midpoint of its first two tokens. -/
theorem split_the_difference_wrong_arity_returns_midpoint :
    split_the_difference (.str "1-2-3") (some "field") = .ok (3 / 2) := by
  have hs : splitOnChar '-' "1-2-3".toList = [['1'], ['2'], ['3']] := by decide
  have h1 : pyFloat ['1'] = some 1 := by decide
  have h2 : pyFloat ['2'] = some 2 := by decide
  simp only [split_the_difference, List.contains, hs, h1, h2]
  norm_num

/-- C2 (amended): `split_the_difference` returns the input as a float
when it is an int or a float; for a string containing "-" it splits on
"-" and returns the midpoint of the FIRST TWO tokens when both parse as
floats (so the wrong-arity "1-2-3" yields 1.5 rather than an error),
and fails with a float-conversion error naming the offending token when
one of those two tokens does not parse; a string without "-" and a null
fail with an invalid-format error identifying the field. -/
theorem split_the_difference_characterisation (k : String) :
    (∀ n : Int, split_the_difference (.int n) (some k) = .ok (n : ℚ)) ∧
    (∀ q : ℚ, split_the_difference (.float q) (some k) = .ok q) ∧
    (∀ s : String, ∀ p0 p1 : List Char, ∀ ps : List (List Char),
      ∀ x y : ℚ, s.toList.contains '-' = true →
      splitOnChar '-' s.toList = p0 :: p1 :: ps →
      pyFloat p0 = some x → pyFloat p1 = some y →
      split_the_difference (.str s) (some k) = .ok ((x + y) / 2)) ∧
    (∀ s : String, ∀ p0 p1 : List Char, ∀ ps : List (List Char),
      s.toList.contains '-' = true →
      splitOnChar '-' s.toList = p0 :: p1 :: ps →
      pyFloat p0 = none →
      split_the_difference (.str s) (some k) =
        .error (.floatParse (String.mk p0))) ∧
    (∀ s : String, ∀ p0 p1 : List Char, ∀ ps : List (List Char), ∀ x : ℚ,
      s.toList.contains '-' = true →
      splitOnChar '-' s.toList = p0 :: p1 :: ps →
      pyFloat p0 = some x → pyFloat p1 = none →
      split_the_difference (.str s) (some k) =
        .error (.floatParse (String.mk p1))) ∧
    (∀ s : String, s.toList.contains '-' = false →
      split_the_difference (.str s) (some k) =
        .error (.invalidFormat k (.str s))) ∧
    split_the_difference .null (some k) = .error (.invalidFormat k .null) := by
  refine ⟨fun n => rfl, fun q => rfl, ?_, ?_, ?_, ?_, rfl⟩
  · intro s p0 p1 ps x y hc hs hx hy
    simp only [split_the_difference, hc, if_true, hs, hx, hy]
  · intro s p0 p1 ps hc hs hx
    simp only [split_the_difference, hc, if_true, hs, hx]
  · intro s p0 p1 ps x hc hs hx hy
    simp only [split_the_difference, hc, if_true, hs, hx, hy]
  · intro s hc
    simp only [split_the_difference, hc, Bool.false_eq_true, if_false,
      Option.getD_some]

/-- Witness for C2's amended claim at the spec's own examples:
"6-7" gives 6.5, 7 gives 7.0, "abc" and null fail naming the field. -/
theorem split_the_difference_characterisation_witness :
    split_the_difference (.str "6-7") (some "f") = .ok (13 / 2) ∧
    split_the_difference (.int 7) (some "f") = .ok 7 ∧
    split_the_difference (.str "abc") (some "f") =
      .error (.invalidFormat "f" (.str "abc")) ∧
    split_the_difference .null (some "f") =
      .error (.invalidFormat "f" .null) := by
  have h := split_the_difference_characterisation "f"
  refine ⟨?_, ?_, ?_, h.2.2.2.2.2.2⟩
  · have h67 := h.2.2.1 "6-7" ['6'] ['7'] [] 6 7 (by decide) (by decide)
      (by decide) (by decide)
    rw [h67]; norm_num
  · exact h.1 7
  · exact h.2.2.2.2.2.1 "abc" (by decide)

/-- A parsed `"HH:MM"` time is at most 23:59, i.e. 1439 minutes. -/
theorem parseHHMM_le_1439 (s : String) (v : Nat) (h : parseHHMM s = some v) :
    v ≤ 1439 := by
  unfold parseHHMM at h
  split at h
  · split at h
    · split at h
      · rename_i hcond
        simp only [Option.some.injEq] at h
        simp only [Bool.and_eq_true, decide_eq_true_eq] at hcond
        omega
      · exact absurd h (by simp)
    · exact absurd h (by simp)
  · exact absurd h (by simp)

/-- C3: the time-range normalizer (spec-modelled, see
`split_the_difference_datetime`) turns two parsed "HH:MM" endpoints into
a duration in hours; when the end time is numerically earlier than the
start it adds 24 hours, so a pair crossing midnight yields a positive
elapsed time in bed. -/
theorem split_the_difference_datetime_wraparound (start_str end_str : String)
    (sm em : Nat) (hs : parseHHMM start_str = some sm)
    (he : parseHHMM end_str = some em) :
    split_the_difference_datetime start_str end_str =
      .ok (((em : ℚ) + (if em < sm then 1440 else 0) - (sm : ℚ)) / 60) ∧
    (em < sm →
      ((em : ℚ) + (if em < sm then 1440 else 0) - (sm : ℚ)) / 60 =
        ((em : ℚ) - (sm : ℚ)) / 60 + 24 ∧
      0 < ((em : ℚ) + (if em < sm then 1440 else 0) - (sm : ℚ)) / 60) := by
  constructor
  · simp only [split_the_difference_datetime, hs, he]
  · intro hlt
    have hsm : sm ≤ 1439 := parseHHMM_le_1439 _ _ hs
    have hsmq : (sm : ℚ) ≤ 1439 := by exact_mod_cast hsm
    have hemq : (0 : ℚ) ≤ (em : ℚ) := by positivity
    rw [if_pos hlt]
    refine ⟨by ring, ?_⟩
    have h0 : (0 : ℚ) < (em : ℚ) + 1440 - (sm : ℚ) := by linarith
    exact div_pos h0 (by norm_num)

/-- Witness for C3 at the claim's own example: bedtime 23:00 and wake
time 07:30 give 8.5 hours in bed, a positive duration. -/
theorem split_the_difference_datetime_wraparound_witness :
    split_the_difference_datetime "23:00" "07:30" = .ok (17 / 2) ∧
    (0 : ℚ) < 17 / 2 := by
  have h := split_the_difference_datetime_wraparound "23:00" "07:30" 1380 450
    (by decide) (by decide)
  refine ⟨?_, by norm_num⟩
  rw [h.1]
  norm_num

/-- C6: `psqi_c1_duration` buckets the normalized sleep-hours value h as
h ≥ 7 gives 0, 6 ≤ h < 7 gives 1, 5 ≤ h < 6 gives 2, and h < 5 gives 3
(the defensive trailing `raise` of the source is unreachable). -/
theorem psqi_c1_duration_buckets (m : AnswerMap) (h : ℚ)
    (hs : split_the_difference (getAns m "q4_sleep_hours")
      (some "q4_sleep_hours") = .ok h) :
    psqi_c1_duration m =
      .ok (if 7 ≤ h then 0 else if 6 ≤ h then 1 else if 5 ≤ h then 2
        else 3) := by
  simp only [psqi_c1_duration, hs]
  by_cases h7 : 7 ≤ h
  · rw [if_pos h7, if_pos h7]
  · by_cases h6 : 6 ≤ h
    · have hc : 6 ≤ h ∧ h < 7 := ⟨h6, lt_of_not_le h7⟩
      rw [if_neg h7, if_pos hc, if_neg h7, if_pos h6]
    · have hc2 : ¬(6 ≤ h ∧ h < 7) := fun c => h6 c.1
      by_cases h5 : 5 ≤ h
      · have hc : 5 ≤ h ∧ h < 6 := ⟨h5, lt_of_not_le h6⟩
        rw [if_neg h7, if_neg hc2, if_pos hc, if_neg h7, if_neg h6,
          if_pos h5]
      · have hc3 : ¬(5 ≤ h ∧ h < 6) := fun c => h5 c.1
        have hlt : h < 5 := lt_of_not_le h5
        rw [if_neg h7, if_neg hc2, if_neg hc3, if_pos hlt, if_neg h7,
          if_neg h6, if_neg h5]

/-- Witness for C6 at the claim's own examples: 8 hours scores 0, 6.5
scores 1, 5.5 scores 2, and 4 scores 3. -/
theorem psqi_c1_duration_buckets_witness :
    psqi_c1_duration (sleepHoursAnswer 8) = .ok 0 ∧
    psqi_c1_duration (sleepHoursAnswer (13 / 2)) = .ok 1 ∧
    psqi_c1_duration (sleepHoursAnswer (11 / 2)) = .ok 2 ∧
    psqi_c1_duration (sleepHoursAnswer 4) = .ok 3 := by
  refine ⟨?_, ?_, ?_, ?_⟩ <;>
  · rw [psqi_c1_duration_buckets (sleepHoursAnswer _) _ rfl]
    norm_num

/-- C5: `hads_anxiety` reverse-scores exactly the item A4 (contributing
3 − value) before summing the seven 0–3 anxiety items, and
`hads_depression` reverse-scores exactly D1, D2, D3, D6, D7; reversal is
applied per item before summation. -/
theorem hads_reverse_scoring (m : AnswerMap)
    (a1 a2 a3 a4 a5 a6 a7 d1 d2 d3 d4 d5 d6 d7 : Int)
    (hA1 : getAns m "A1" = .int a1) (hA2 : getAns m "A2" = .int a2)
    (hA3 : getAns m "A3" = .int a3) (hA4 : getAns m "A4" = .int a4)
    (hA5 : getAns m "A5" = .int a5) (hA6 : getAns m "A6" = .int a6)
    (hA7 : getAns m "A7" = .int a7)
    (hD1 : getAns m "D1" = .int d1) (hD2 : getAns m "D2" = .int d2)
    (hD3 : getAns m "D3" = .int d3) (hD4 : getAns m "D4" = .int d4)
    (hD5 : getAns m "D5" = .int d5) (hD6 : getAns m "D6" = .int d6)
    (hD7 : getAns m "D7" = .int d7) :
    hads_anxiety m = .ok (a1 + a2 + a3 + (3 - a4) + a5 + a6 + a7) ∧
    hads_depression m =
      .ok ((3 - d1) + (3 - d2) + (3 - d3) + d4 + d5 + (3 - d6) + (3 - d7)) := by
  constructor
  · simp [hads_anxiety, hadsLoop, valid_and_digit,
      hA1, hA2, hA3, hA4, hA5, hA6, hA7]
  · simp [hads_depression, hadsLoop, valid_and_digit,
      hD1, hD2, hD3, hD4, hD5, hD6, hD7]

/-- Witness for C5: with every HADS item answered 0, the anxiety subscale
totals 3 (only the reversed A4 contributes, as 3 − 0) and the depression
subscale totals 15 (its five reversed items contribute 3 each). -/
theorem hads_reverse_scoring_witness :
    hads_anxiety hadsAnswersAllZero = .ok 3 ∧
    hads_depression hadsAnswersAllZero = .ok 15 := by
  have h := hads_reverse_scoring hadsAnswersAllZero 0 0 0 0 0 0 0 0 0 0 0 0 0 0
    rfl rfl rfl rfl rfl rfl rfl rfl rfl rfl rfl rfl rfl rfl
  refine ⟨?_, ?_⟩
  · rw [h.1]; norm_num
  · rw [h.2]; norm_num

/-- C7: the WHO-5 scorer validates and sums the five items Q1–Q5 and
multiplies the raw sum by 4 into the percentage score. -/
theorem process_who5_scoring (m : AnswerMap) (q1 q2 q3 q4 q5 : Int)
    (h1 : getAns m "Q1" = .int q1) (h2 : getAns m "Q2" = .int q2)
    (h3 : getAns m "Q3" = .int q3) (h4 : getAns m "Q4" = .int q4)
    (h5 : getAns m "Q5" = .int q5) :
    process_who5_response m =
      .ok ⟨q1 + q2 + q3 + q4 + q5, (q1 + q2 + q3 + q4 + q5) * 4⟩ := by
  simp [process_who5_response, simple_response_to_score_map, sumLoop,
    valid_and_digit, h1, h2, h3, h4, h5]

/-- Witness for C7 at the claim's own example: five items all answered 3
give a raw sum of 15 and a percentage score of 60. -/
theorem process_who5_scoring_witness :
    process_who5_response who5AnswersAllThree = .ok ⟨15, 60⟩ := by
  have h := process_who5_scoring who5AnswersAllThree 3 3 3 3 3
    rfl rfl rfl rfl rfl
  rw [h]; norm_num

/-- C4: the claim says that whenever all seven component scorers succeed
each component is an integer in [0,3] and the global score lies in 0–21.
On the code this fails: with `q6_overall_quality` answered by the integer
22 (all other items valid), every scorer succeeds — `valid_and_digit`
returns integers without a range check — and the returned scores have
C6 = 22 and overall score 22 > 21.  The parts of the claim that do hold
are visible in the result: the overall score equals the sum of the seven
components, and (by construction of `process_psqi_response`) any
component failure aborts the whole instrument. -/
theorem process_psqi_component_escapes_range :
    process_psqi_response psqiAnswersQ6Large =
      .ok ⟨0, 0, 0, 0, 0, 22, 0, 22⟩ := by
  have hq4 : getAns psqiAnswersQ6Large "q4_sleep_hours" = .float 8 := by
    decide
  have hc1 : psqi_c1_duration psqiAnswersQ6Large = .ok 0 := by
    simp only [psqi_c1_duration, hq4, split_the_difference]
    norm_num
  have hc2 : psqi_c2_disturbance psqiAnswersQ6Large = .ok 0 := by
    have hb : getAns psqiAnswersQ6Large "q5b_wake_during_night" = .int 0 := by
      decide
    have hcb : getAns psqiAnswersQ6Large "q5c_bathroom" = .int 0 := by decide
    have hd : getAns psqiAnswersQ6Large "q5d_cant_breathe" = .int 0 := by
      decide
    have he : getAns psqiAnswersQ6Large "q5e_snore" = .int 0 := by decide
    have hf : getAns psqiAnswersQ6Large "q5f_cold" = .int 0 := by decide
    have hg : getAns psqiAnswersQ6Large "q5g_hot" = .int 0 := by decide
    have hh : getAns psqiAnswersQ6Large "q5h_bad_dreams" = .int 0 := by decide
    have hi : getAns psqiAnswersQ6Large "q5i_pain" = .int 0 := by decide
    simp only [psqi_c2_disturbance, disturbance_questions, sumLoop,
      valid_and_digit, hb, hcb, hd, he, hf, hg, hh, hi]
    norm_num
  have hc3 : psqi_c3_latency psqiAnswersQ6Large = .ok 0 := by
    have hq2 : getAns psqiAnswersQ6Large "q2_sleep_latency_min" = .int 10 := by
      decide
    have h5a : getAns psqiAnswersQ6Large "q5a_cant_sleep_30min" = .int 0 := by
      decide
    simp only [psqi_c3_latency, hq2, h5a, split_the_difference,
      valid_and_digit]
    norm_num
  have hc4 : psqi_c4_day_dysfunction psqiAnswersQ6Large = .ok 0 := by
    have h8 : getAns psqiAnswersQ6Large "q8_trouble_staying_awake" =
        .int 0 := by decide
    have h9 : getAns psqiAnswersQ6Large "q9_low_enthusiasm" = .int 0 := by
      decide
    simp only [psqi_c4_day_dysfunction, h8, h9, valid_and_digit]
    norm_num
  have hc5 : psqi_c5_sleep_efficiency psqiAnswersQ6Large = .ok 0 := by
    have hq1 : getAns psqiAnswersQ6Large "q1_bedtime" = .str "23:00" := by
      decide
    have hq3 : getAns psqiAnswersQ6Large "q3_wake_time" = .str "07:00" := by
      decide
    have hp1 : parseHHMM "23:00" = some 1380 := by decide
    have hp2 : parseHHMM "07:00" = some 420 := by decide
    have hdt : split_the_difference_datetime "23:00" "07:00" = .ok 8 := by
      simp only [split_the_difference_datetime, hp1, hp2]
      norm_num
    simp only [psqi_c5_sleep_efficiency, hq1, hq3, hq4, hdt,
      split_the_difference]
    norm_num
  have hc6 : psqi_c6_overall_sleep_quality psqiAnswersQ6Large = .ok 22 := by
    have h6 : getAns psqiAnswersQ6Large "q6_overall_quality" = .int 22 := by
      decide
    simp only [psqi_c6_overall_sleep_quality, h6, valid_and_digit]
  have hc7 : psqi_c7_medication psqiAnswersQ6Large = .ok 0 := by
    have h7 : getAns psqiAnswersQ6Large "q7_sleep_medication" = .int 0 := by
      decide
    simp only [psqi_c7_medication, h7, valid_and_digit]
  simp only [process_psqi_response, hc1, hc2, hc3, hc4, hc5, hc6, hc7]
  norm_num

/-- C8: `danish_medicine_adherence_scale` adds 1 point per binary item
answered "yes" (matched case-insensitively), adds the frequency item
D4-4 mapped never/rarely/sometimes/usually/always to 0/1/2/3/4 divided
by 4, ignores the free-text items D4-5 and D4-7 entirely (arbitrary
values there do not affect the result), and scores four "yes" plus
"Always" as 5.0.  Every unrecognized category word is a hard failure:
any string whose lowercase form is none of the five frequency words
fails the D4-4 assert, and any string whose lowercase form is neither
"yes" nor "no" fails the binary-item assert — at D4-1 for the whole
scale, and at every binary item for the source's binary loop. -/
theorem danish_medicine_adherence_scoring (b1 b2 b3 b6 : Bool)
    (v5 v7 : JsonValue) :
    (danish_medicine_adherence_scale
        (mkDmasAnswers b1 b2 b3 b6 "Never" v5 v7) =
      .ok (((if b1 then 1 else 0) + (if b2 then 1 else 0) +
        (if b3 then 1 else 0) + (if b6 then 1 else 0) : ℚ) + 0 / 4)) ∧
    (danish_medicine_adherence_scale
        (mkDmasAnswers b1 b2 b3 b6 "Rarely" v5 v7) =
      .ok (((if b1 then 1 else 0) + (if b2 then 1 else 0) +
        (if b3 then 1 else 0) + (if b6 then 1 else 0) : ℚ) + 1 / 4)) ∧
    (danish_medicine_adherence_scale
        (mkDmasAnswers b1 b2 b3 b6 "Sometimes" v5 v7) =
      .ok (((if b1 then 1 else 0) + (if b2 then 1 else 0) +
        (if b3 then 1 else 0) + (if b6 then 1 else 0) : ℚ) + 2 / 4)) ∧
    (danish_medicine_adherence_scale
        (mkDmasAnswers b1 b2 b3 b6 "Usually" v5 v7) =
      .ok (((if b1 then 1 else 0) + (if b2 then 1 else 0) +
        (if b3 then 1 else 0) + (if b6 then 1 else 0) : ℚ) + 3 / 4)) ∧
    (danish_medicine_adherence_scale
        (mkDmasAnswers b1 b2 b3 b6 "Always" v5 v7) =
      .ok (((if b1 then 1 else 0) + (if b2 then 1 else 0) +
        (if b3 then 1 else 0) + (if b6 then 1 else 0) : ℚ) + 4 / 4)) ∧
    (danish_medicine_adherence_scale
        (mkDmasAnswers true true true true "Always" v5 v7) = .ok 5) ∧
    (∀ w : String, pyLower w ≠ "never" → pyLower w ≠ "rarely" →
      pyLower w ≠ "sometimes" → pyLower w ≠ "usually" →
      pyLower w ≠ "always" →
      danish_medicine_adherence_scale
          (mkDmasAnswers b1 b2 b3 b6 w v5 v7) =
        .error (.assertFailed "Invalid answer for D4-4")) ∧
    (∀ w : String, ∀ rest : AnswerMap,
      pyLower w ≠ "yes" → pyLower w ≠ "no" →
      danish_medicine_adherence_scale (("D4-1", .str w) :: rest) =
        .error (.assertFailed "Invalid answer for D4-1")) ∧
    (∀ q : String, ∀ qs : List String, ∀ acc : ℚ, ∀ m : AnswerMap,
      ∀ w : String, getAns m q = .str w →
      pyLower w ≠ "yes" → pyLower w ≠ "no" →
      dmasBinaryLoop m (q :: qs) acc =
        .error (.assertFailed ("Invalid answer for " ++ q))) := by
  have hNever : pyLower "Never" = "never" := by decide
  have hRarely : pyLower "Rarely" = "rarely" := by decide
  have hSometimes : pyLower "Sometimes" = "sometimes" := by decide
  have hUsually : pyLower "Usually" = "usually" := by decide
  have hAlways : pyLower "Always" = "always" := by decide
  have hbin : ∀ (q : String) (qs : List String) (acc : ℚ) (b : Bool)
      (m : AnswerMap), getAns m q = .str (mkYesNo b) →
      dmasBinaryLoop m (q :: qs) acc =
        dmasBinaryLoop m qs (acc + (if b then 1 else 0)) := by
    intro q qs acc b m h
    cases b
    · have hNo : pyLower "No" = "no" := by decide
      simp [dmasBinaryLoop, h, mkYesNo, hNo]
    · have hYes : pyLower "Yes" = "yes" := by decide
      simp [dmasBinaryLoop, h, mkYesNo, hYes]
  have hget4 : ∀ (c1 c2 c3 c6 : Bool) (f : String) (w5 w7 : JsonValue),
      getAns (mkDmasAnswers c1 c2 c3 c6 f w5 w7) "D4-4" = .str f := by
    intro c1 c2 c3 c6 f w5 w7
    simp [mkDmasAnswers, getAns]
  have hloop : ∀ (c1 c2 c3 c6 : Bool) (f : String) (w5 w7 : JsonValue),
      dmasBinaryLoop (mkDmasAnswers c1 c2 c3 c6 f w5 w7)
          ["D4-1", "D4-2", "D4-3", "D4-6"] 0 =
        .ok ((if c1 then 1 else 0) + (if c2 then 1 else 0) +
          (if c3 then 1 else 0) + (if c6 then 1 else 0)) := by
    intro c1 c2 c3 c6 f w5 w7
    rw [hbin _ _ _ c1 _ (by simp [mkDmasAnswers, getAns]),
      hbin _ _ _ c2 _ (by simp [mkDmasAnswers, getAns]),
      hbin _ _ _ c3 _ (by simp [mkDmasAnswers, getAns]),
      hbin _ _ _ c6 _ (by simp [mkDmasAnswers, getAns])]
    simp [dmasBinaryLoop]
  have hbinFail : ∀ (q : String) (qs : List String) (acc : ℚ)
      (m : AnswerMap) (w : String), getAns m q = .str w →
      pyLower w ≠ "yes" → pyLower w ≠ "no" →
      dmasBinaryLoop m (q :: qs) acc =
        .error (.assertFailed ("Invalid answer for " ++ q)) := by
    intro q qs acc m w hw hy hn
    simp only [dmasBinaryLoop, hw]
    rw [if_neg hy, if_neg hn]
  refine ⟨?_, ?_, ?_, ?_, ?_, ?_, ?_, ?_, hbinFail⟩
  · simp only [danish_medicine_adherence_scale, hloop, hget4, hNever]
    rw [if_pos trivial]
  · simp only [danish_medicine_adherence_scale, hloop, hget4, hRarely]
    rw [if_neg (by decide), if_pos trivial]
  · simp only [danish_medicine_adherence_scale, hloop, hget4, hSometimes]
    rw [if_neg (by decide), if_neg (by decide), if_pos trivial]
  · simp only [danish_medicine_adherence_scale, hloop, hget4, hUsually]
    rw [if_neg (by decide), if_neg (by decide), if_neg (by decide),
      if_pos trivial]
  · simp only [danish_medicine_adherence_scale, hloop, hget4, hAlways]
    rw [if_neg (by decide), if_neg (by decide), if_neg (by decide),
      if_neg (by decide), if_pos trivial]
  · simp only [danish_medicine_adherence_scale, hloop, hget4, hAlways]
    rw [if_neg (by decide), if_neg (by decide), if_neg (by decide),
      if_neg (by decide), if_pos trivial]
    norm_num
  · intro w h1 h2 h3 h4 h5
    simp only [danish_medicine_adherence_scale, hloop, hget4]
    rw [if_neg h1, if_neg h2, if_neg h3, if_neg h4, if_neg h5]
  · intro w rest hy hn
    have hg : getAns (("D4-1", JsonValue.str w) :: rest) "D4-1" =
        .str w := by simp [getAns]
    simp only [danish_medicine_adherence_scale,
      hbinFail "D4-1" ["D4-2", "D4-3", "D4-6"] 0 _ w hg hy hn]
    rfl

/-- Witness for C8: four capitalized "Yes" answers with frequency
"Always" score 5.0; the unrecognized frequency word "often" and the
unrecognized binary answers "not sure" (at D4-1, for the whole scale)
and "maybe" (at D4-2, for the binary loop) are hard failures. -/
theorem danish_medicine_adherence_scoring_witness :
    danish_medicine_adherence_scale
        (mkDmasAnswers true true true true "Always" (.str "comment") .null) =
      .ok 5 ∧
    danish_medicine_adherence_scale
        (mkDmasAnswers true true true true "often" (.str "comment") .null) =
      .error (.assertFailed "Invalid answer for D4-4") ∧
    danish_medicine_adherence_scale [("D4-1", .str "not sure")] =
      .error (.assertFailed "Invalid answer for D4-1") ∧
    dmasBinaryLoop [("D4-2", .str "maybe")] ["D4-2", "D4-3"] 1 =
      .error (.assertFailed "Invalid answer for D4-2") := by
  have h := danish_medicine_adherence_scoring true true true true
    (.str "comment") .null
  refine ⟨h.2.2.2.2.2.1, ?_, ?_, ?_⟩
  · exact h.2.2.2.2.2.2.1 "often" (by decide) (by decide) (by decide)
      (by decide) (by decide)
  · exact h.2.2.2.2.2.2.2.1 "not sure" [] (by decide) (by decide)
  · exact h.2.2.2.2.2.2.2.2 "D4-2" ["D4-3"] 1 [("D4-2", .str "maybe")]
      "maybe" (by decide) (by decide) (by decide)

/-- C9: `get_standardised_overall_score` returns
(overall_score / max_score) × 100 for every response whose scores
mapping has both entries (and a nonzero max score — Python raises
`ZeroDivisionError` on a zero one), and fails with a descriptive error
naming the instrument when the scores mapping, the overall score, or the
max score is absent. -/
theorem get_standardised_overall_score_spec (instrument_id : String)
    (r : Response) :
    (∀ s : List (String × ℚ), ∀ o mx : ℚ, r.scores = some s →
      lookupScore s "overall_score" = some o →
      lookupScore s "max_score" = some mx → mx ≠ 0 →
      get_standardised_overall_score instrument_id r =
        .ok (o / mx * 100)) ∧
    (r.scores = none →
      get_standardised_overall_score instrument_id r = .error (.assertFailed
        ("No scores found in response for instrument " ++ instrument_id))) ∧
    (∀ s : List (String × ℚ), r.scores = some s →
      lookupScore s "overall_score" = none →
      get_standardised_overall_score instrument_id r = .error (.assertFailed
        ("No overall score found in response for instrument " ++
          instrument_id))) ∧
    (∀ s : List (String × ℚ), ∀ o : ℚ, r.scores = some s →
      lookupScore s "overall_score" = some o →
      lookupScore s "max_score" = none →
      get_standardised_overall_score instrument_id r = .error (.assertFailed
        ("No max score found in response for instrument " ++
          instrument_id))) := by
  refine ⟨?_, ?_, ?_, ?_⟩
  · intro s o mx hs ho hm hnz
    simp only [get_standardised_overall_score, hs, ho, hm, if_neg hnz]
  · intro hs
    simp only [get_standardised_overall_score, hs]
  · intro s hs ho
    simp only [get_standardised_overall_score, hs, ho]
  · intro s o hs ho hm
    simp only [get_standardised_overall_score, hs, ho, hm]

/-- Witness for C9: a scores mapping with overall 15 and max 25
standardises to 60, and each of the three absence shapes produces the
error message naming the instrument. -/
theorem get_standardised_overall_score_spec_witness :
    get_standardised_overall_score "WHO5" who5ScoresResponse = .ok 60 ∧
    get_standardised_overall_score "WHO5" noScoresResponse =
      .error (.assertFailed
        "No scores found in response for instrument WHO5") ∧
    get_standardised_overall_score "WHO5" noOverallResponse =
      .error (.assertFailed
        "No overall score found in response for instrument WHO5") ∧
    get_standardised_overall_score "WHO5" noMaxResponse =
      .error (.assertFailed
        "No max score found in response for instrument WHO5") := by
  refine ⟨?_, ?_, ?_, ?_⟩
  · have h := (get_standardised_overall_score_spec "WHO5"
      who5ScoresResponse).1 [("overall_score", 15), ("max_score", 25)] 15 25
      rfl rfl rfl (by norm_num)
    rw [h]; norm_num
  · exact (get_standardised_overall_score_spec "WHO5"
      noScoresResponse).2.1 rfl
  · exact (get_standardised_overall_score_spec "WHO5"
      noOverallResponse).2.2.1 [("max_score", 25)] rfl rfl
  · exact (get_standardised_overall_score_spec "WHO5"
      noMaxResponse).2.2.2 [("overall_score", 15)] 15 rfl rfl rfl

end Infographic
